import Mathlib

/-!
Verification of the PicoPy repository (PicoLog1000.py / PicoPyServer.py).

Shallow embedding conventions:
* Python ints are `Nat` (all quantities involved are non-negative); `ctypes.c_uint32`
  marshalling is modelled by reduction modulo `2^32`, `ctypes.c_uint16` modulo `2^16`.
* Python floats are modelled exactly as rationals (`ℚ`).
* Vendor-SDK calls (`pl1000...`) are external: each driver method takes the device's
  response (status code and any out-parameter values) as explicit arguments, and the
  sequence of SDK invocations issued is recorded in an `sdk_log` trace field so that
  statements such as "the device is not re-run" are expressible.
* Python exceptions are modelled by returning `PicoLog × Except PicoError α`: the first
  component is the object state at the moment the call returns or the exception escapes
  (Python mutations performed before a raise survive it).
* `time.time()` readings are explicit rational arguments.
-/

/-- Vendor status codes. The repository only ever compares statuses for equality with
the named constants; the numeric values never matter, so statuses are an inductive. -/
inductive PicoStatus
  | ok
  | busy
  | notFound
  | notResponding
  | other (code : Nat)
deriving DecidableEq, Repr

/-- Exceptions that can escape the driver methods. `deviceError` is the exception raised
by picosdk's `assert_pico_ok`, `closedDevice` is `ClosedDeviceError`, and `zeroDivision`
is Python's `ZeroDivisionError` (from `record_us / total_points` with zero points). -/
inductive PicoError
  | closedDevice
  | deviceError (status : PicoStatus)
  | zeroDivision
deriving DecidableEq, Repr

/-- One invocation of the vendor SDK, as issued by the driver (arguments after ctypes
marshalling). -/
inductive SdkCall
  | setInterval (us : Nat) (points : Nat) (channels : List Int) (nc : Nat)
  | run (n : Nat)
  | readyQ
  | getValues (n : Nat)
  | stop
  | closeUnit
  | setTriggerCall
  | pingUnit
deriving DecidableEq, Repr

def UINT32_MOD : Nat := 4294967296

def UINT16_MOD : Nat := 65536

/-- `MAX_CAPTURE_SIZE` from PicoLog1000.py. -/
def MAX_CAPTURE_SIZE : Nat := 1000000

/-- `US_LIMIT` from PicoLog1000.py. -/
def US_LIMIT : Nat := 8096

/-- State of a `PicoLog1000` object (PicoLog1000.py `__init__`).
`handle_set` models `handle is not None`.  `data` / `times` hold the current capture
buffer and time-offset table as total functions together with the allocated numpy shape
in `data_shape` (row `i`, column `j`; entries outside the shape are irrelevant).
The initial `trigger_channel` string "PL1000_CHANNEL_1" resolves to input number 1
through the static `PL1000Inputs` table, so the field stores the resolved number.
Fields of the Python object that no claim touches (`info`, `timeout`, the reconnect
counters) are omitted. -/
structure PicoLog where
  handle_set : Bool := false
  opened : Bool := false
  last_status : Option PicoStatus := none
  max_adc : Nat := 4096
  scale : ℚ := (5/2) / 4096
  channels : List Int := []
  points : Nat := 1
  record_us : Nat := 10
  sampling : ℚ := 1/100
  trigger_enabled : Nat := 0
  trigger_channel : Nat := 1
  trigger_edge : Nat := 0
  trigger_threshold : Nat := 2048
  trigger_hysteresis : Nat := 100
  trigger_delay : ℚ := 10
  trigger_auto : Nat := 0
  trigger_ms : Nat := 1000
  data : Nat → Nat → Nat := fun _ _ => 0
  data_shape : Nat × Nat := (0, 0)
  t_base : Nat → ℚ := fun _ => 0
  times : Nat → Nat → ℚ := fun _ _ => 0
  overflow : Nat := 0
  trigger : Nat := 0
  recording_start_time : ℚ := 0
  recording_end_time : ℚ := 0
  record_in_progress : Bool := false
  read_time : ℚ := 0
  sdk_log : List SdkCall := []

/-- picosdk's `assert_pico_ok`: raises unless the status is `PICO_OK`. -/
def assert_pico_ok (s : PicoStatus) : Except PicoError Unit :=
  if s = PicoStatus.ok then Except.ok () else Except.error (PicoError.deviceError s)

/-- `PicoLog1000.ping` (lines 351-358): issues `pl1000PingUnit`, stores the status, and
returns the elapsed wall-clock time when the status is `PICO_OK` or `PICO_BUSY`, `-1.0`
otherwise.  `elapsed` is the difference of the two `time.time()` readings.  The method
never raises. -/
def PicoLog.ping (st : PicoLog) (pingStatus : PicoStatus) (elapsed : ℚ) : PicoLog × ℚ :=
  let st1 := { st with last_status := some pingStatus,
                       sdk_log := st.sdk_log ++ [SdkCall.pingUnit] }
  if pingStatus = PicoStatus.ok ∨ pingStatus = PicoStatus.busy then (st1, elapsed)
  else (st1, -1)

/-- `PicoLog1000.assert_open` (lines 94-110): raises `ClosedDeviceError` when the handle
is unset or the device is not opened; otherwise pings the unit and, when the ping result
is negative, lets `assert_pico_ok` raise on the stored (ping) status. -/
def PicoLog.assert_open (st : PicoLog) (pingStatus : PicoStatus) (elapsed : ℚ) :
    PicoLog × Except PicoError Bool :=
  if st.handle_set = false ∨ st.opened = false then
    (st, Except.error PicoError.closedDevice)
  else
    let p := PicoLog.ping st pingStatus elapsed
    if p.2 < 0 then
      match assert_pico_ok pingStatus with
      | Except.ok _ => (p.1, Except.ok true)
      | Except.error e => (p.1, Except.error e)
    else (p.1, Except.ok true)

/-- `PicoLog1000.close` (lines 321-323): issues `pl1000CloseUnit`, stores the status,
then `assert_pico_ok` raises whenever the returned status is not `PICO_OK`. -/
def PicoLog.close (st : PicoLog) (devStatus : PicoStatus) : PicoLog × Except PicoError Unit :=
  let st1 := { st with last_status := some devStatus,
                       sdk_log := st.sdk_log ++ [SdkCall.closeUnit] }
  (st1, assert_pico_ok devStatus)

/-- `PicoLog1000.stop` (lines 325-328). -/
def PicoLog.stop (st : PicoLog) (pingStatus : PicoStatus) (pingElapsed : ℚ)
    (devStatus : PicoStatus) : PicoLog × Except PicoError Unit :=
  match PicoLog.assert_open st pingStatus pingElapsed with
  | (st1, Except.error e) => (st1, Except.error e)
  | (st1, Except.ok _) =>
    let st2 := { st1 with last_status := some devStatus,
                          sdk_log := st1.sdk_log ++ [SdkCall.stop] }
    (st2, assert_pico_ok devStatus)

/-- `PicoLog1000.start_recording` (lines 250-268), in the `n_values=None`,
`mode="BM_SINGLE"` form used by the server: issues `pl1000Run` for `points` samples,
and on success records the start timestamp and clears overflow/end-time/read-time. -/
def PicoLog.start_recording (st : PicoLog) (pingStatus : PicoStatus) (pingElapsed : ℚ)
    (devStatus : PicoStatus) (now : ℚ) : PicoLog × Except PicoError Unit :=
  match PicoLog.assert_open st pingStatus pingElapsed with
  | (st1, Except.error e) => (st1, Except.error e)
  | (st1, Except.ok _) =>
    let st2 := { st1 with last_status := some devStatus,
                          sdk_log := st1.sdk_log ++ [SdkCall.run st1.points] }
    match assert_pico_ok devStatus with
    | Except.error e => (st2, Except.error e)
    | Except.ok _ =>
      ({ st2 with recording_start_time := now, overflow := 0,
                  recording_end_time := 0, read_time := 0 }, Except.ok ())

/-- `PicoLog1000.ready` (lines 270-278): issues `pl1000Ready`; `readyFlag` is the value
the device writes into the out-parameter.  On the first ready observation the end
timestamp is recorded. -/
def PicoLog.ready (st : PicoLog) (pingStatus : PicoStatus) (pingElapsed : ℚ)
    (devStatus : PicoStatus) (readyFlag : Bool) (now : ℚ) :
    PicoLog × Except PicoError Bool :=
  match PicoLog.assert_open st pingStatus pingElapsed with
  | (st1, Except.error e) => (st1, Except.error e)
  | (st1, Except.ok _) =>
    let st2 := { st1 with last_status := some devStatus,
                          sdk_log := st1.sdk_log ++ [SdkCall.readyQ] }
    match assert_pico_ok devStatus with
    | Except.error e => (st2, Except.error e)
    | Except.ok _ =>
      if readyFlag ∧ st2.recording_end_time = 0 then
        ({ st2 with recording_end_time := now }, Except.ok readyFlag)
      else (st2, Except.ok readyFlag)

/-- `PicoLog1000.set_trigger` (lines 330-349): forwards the parameters to
`pl1000SetTrigger` (string channel names are first resolved through the static
`PL1000Inputs` table; the server only passes numeric channels, which pass through
unchanged, so the channel argument is the resolved number).  `assert_pico_ok` raises on
a non-success status BEFORE any of the trigger fields are assigned; on success every
parameter is stored. -/
def PicoLog.set_trigger (st : PicoLog) (enabled : Nat) (channel : Nat) (edge : Nat)
    (threshold : Nat) (hysteresis : Nat) (delay_percent : ℚ) (auto_trigger : Nat)
    (auto_ms : Nat) (pingStatus : PicoStatus) (pingElapsed : ℚ) (devStatus : PicoStatus) :
    PicoLog × Except PicoError Unit :=
  match PicoLog.assert_open st pingStatus pingElapsed with
  | (st1, Except.error e) => (st1, Except.error e)
  | (st1, Except.ok _) =>
    let st2 := { st1 with last_status := some devStatus,
                          sdk_log := st1.sdk_log ++ [SdkCall.setTriggerCall] }
    match assert_pico_ok devStatus with
    | Except.error e => (st2, Except.error e)
    | Except.ok _ =>
      ({ st2 with trigger_enabled := enabled, trigger_channel := channel,
                  trigger_edge := edge, trigger_threshold := threshold,
                  trigger_hysteresis := hysteresis, trigger_delay := delay_percent,
                  trigger_auto := auto_trigger, trigger_ms := auto_ms }, Except.ok ())

/-- Lines 200-205 of `set_timing`: the requested points-per-channel, truncated to
`MAX_CAPTURE_SIZE // nc` when the total exceeds the maximum capture size. -/
def resolved_points (nc channel_points : Nat) : Nat :=
  if nc * channel_points > MAX_CAPTURE_SIZE then MAX_CAPTURE_SIZE / nc
  else channel_points

/-- Lines 207-215 of `set_timing`: the requested record time, corrected to
`total_points * interval` (interval 1 for small totals, 10 for large ones) when the
implied interval `record_us / total_points` is below the floor. -/
def resolved_record (nc channel_points channel_record_us : Nat) : Nat :=
  let total := nc * resolved_points nc channel_points
  let interval : ℚ := (channel_record_us : ℚ) / (total : ℚ)
  if (total ≤ US_LIMIT ∧ interval < 1) ∨ (US_LIMIT < total ∧ interval < 10) then
    total * (if total ≤ US_LIMIT then 1 else 10)
  else channel_record_us

/-- `np.linspace(0.0, stop, num)` at index `j` (exact rational arithmetic):
`start + j * (stop - start)/(num - 1)`, and the single sample `0.0` when `num = 1`. -/
def linspace0 (stop : ℚ) (num : Nat) : Nat → ℚ :=
  fun j => if num = 1 then 0 else (j : ℚ) * (stop / ((num : ℚ) - 1))

/-- Lines 225-248 of `set_timing`, after the successful `pl1000SetInterval` call:
store the device-returned `n.value` / `t_us.value` (values of the `c_uint32` out
parameters, hence reduced modulo `2^32`), recompute `sampling`, allocate the capture
buffer shape, rebuild the time-offset table, and compare against the original request.
`np.empty` leaves the data contents unspecified, so `data` itself is unchanged and only
its shape is recorded. -/
def timing_commit (st : PicoLog) (channels : List Int)
    (channel_points channel_record_us : Nat) (n_out us_out : Nat) :
    PicoLog × Except PicoError Bool :=
  let pts := n_out % UINT32_MOD
  let rus := us_out % UINT32_MOD
  let smp : ℚ := (1/1000) * (rus : ℚ) / (pts : ℚ)
  let tB : Nat → ℚ := linspace0 (((pts : ℚ) - 1) * smp) pts
  let st3 := { st with
    channels := channels
    points := pts
    record_us := rus
    sampling := smp
    data_shape := (channels.length, pts)
    t_base := tB
    times := fun i j => tB j + (i : ℚ) * smp / (channels.length : ℚ) }
  if pts ≠ channel_points ∨ rus ≠ channel_record_us then (st3, Except.ok false)
  else (st3, Except.ok true)

/-- Response of the `pl1000SetInterval` call: the status and the values the device
leaves in the `t_us` and `n` out-parameters (read back through `c_uint32`). -/
structure SetIntervalReply where
  status : PicoStatus
  us_out : Nat
  n_out : Nat
deriving DecidableEq, Repr

/-- `PicoLog1000.set_timing` (lines 195-248).  The `nc < 0` guard of the source can
never fire (a Python `len` is non-negative) and is kept verbatim.  When the (possibly
truncated) total number of points is zero, the interval computation
`float(channel_record_us) / total_points` raises `ZeroDivisionError`.  The corrected
parameters are marshalled through `c_uint32` (modulo `2^32`) and issued to the device;
the device's response is the explicit `reply` argument. -/
def set_timing (st : PicoLog) (channels : List Int)
    (channel_points channel_record_us : Nat) (pingStatus : PicoStatus) (pingElapsed : ℚ)
    (reply : SetIntervalReply) : PicoLog × Except PicoError Bool :=
  let nc := channels.length
  if (nc : Int) < 0 then (st, Except.ok false)
  else
    let cp := resolved_points nc channel_points
    if nc * cp = 0 then (st, Except.error PicoError.zeroDivision)
    else
      let cr := resolved_record nc channel_points channel_record_us
      match PicoLog.assert_open st pingStatus pingElapsed with
      | (st1, Except.error e) => (st1, Except.error e)
      | (st1, Except.ok _) =>
        let st2 := { st1 with
          last_status := some reply.status
          sdk_log := st1.sdk_log ++
            [SdkCall.setInterval (cr % UINT32_MOD) (cp % UINT32_MOD) channels nc] }
        match assert_pico_ok reply.status with
        | Except.error e => (st2, Except.error e)
        | Except.ok _ =>
          timing_commit st2 channels channel_points channel_record_us reply.n_out reply.us_out

/-- Response of the `pl1000GetValues` call: status, out-parameter values and the
samples the device writes into the capture buffer. -/
structure GetValuesReply where
  status : PicoStatus
  n_out : Nat
  overflow_out : Nat
  trigger_out : Nat
  values : Nat → Nat → Nat

/-- `PicoLog1000.read` (lines 304-319) in the `wait=0.0` form used by the server (a
positive `wait` only inserts a `wait_result` polling loop in front).  A not-ready
device merely logs a warning: the buffer is pulled from the device regardless.  On a
successful `pl1000GetValues` the read timestamp, overflow flag (`c_uint16`) and
trigger index (`c_uint32`) are stored. -/
def PicoLog.read (st : PicoLog) (pingStatus : PicoStatus) (pingElapsed : ℚ)
    (readyStatus : PicoStatus) (readyFlag : Bool) (now : ℚ) (reply : GetValuesReply)
    (readTime : ℚ) : PicoLog × Except PicoError Unit :=
  match PicoLog.ready st pingStatus pingElapsed readyStatus readyFlag now with
  | (st1, Except.error e) => (st1, Except.error e)
  | (st1, Except.ok _) =>
    let st2 := { st1 with last_status := some reply.status,
                          data := reply.values,
                          sdk_log := st1.sdk_log ++ [SdkCall.getValues st1.points] }
    match assert_pico_ok reply.status with
    | Except.error e => (st2, Except.error e)
    | Except.ok _ =>
      ({ st2 with read_time := readTime,
                  overflow := reply.overflow_out % UINT16_MOD,
                  trigger := reply.trigger_out % UINT32_MOD }, Except.ok ())

/-- Tango `DevState` values used by PicoPyServer.py. -/
inductive DevState
  | stInit
  | stOn
  | standby
  | running
  | fault
  | stClose
deriving DecidableEq, Repr

/-- Tango attribute quality as set by the read helpers. -/
inductive AttrQuality
  | valid
  | invalid
deriving DecidableEq, Repr

/-- State of a `PicoPyServer` device (PicoPyServer.py `init_device`): the wrapped
driver object plus the record/data-ready flags and the published Tango state. -/
structure Server where
  picolog : PicoLog
  record_initiated : Bool := false
  data_ready_value : Bool := false
  dev_state : DevState := DevState.stInit

/-- `PicoPyServer.read_data_ready` (lines 568-569). -/
def Server.read_data_ready (sv : Server) : Bool :=
  sv.data_ready_value

/-- `PicoPyServer._start` (lines 769-789): when called with a positive argument while a
record is already initiated the request is rejected (logged, returns `False`, nothing
else happens).  Otherwise the driver is started; on success the record/data-ready flags
and the `RUNNING` state are set and `True` is returned, on any exception the record
flag is cleared, the state becomes `FAULT` and `False` is returned. -/
def Server._start (sv : Server) (value : Int) (pingStatus : PicoStatus) (pingElapsed : ℚ)
    (devStatus : PicoStatus) (now : ℚ) : Server × Bool :=
  if 0 < value ∧ sv.record_initiated = true then (sv, false)
  else
    match PicoLog.start_recording sv.picolog pingStatus pingElapsed devStatus now with
    | (pl, Except.ok _) =>
      ({ sv with picolog := pl, record_initiated := true, data_ready_value := false,
                 dev_state := DevState.running }, true)
    | (pl, Except.error _) =>
      ({ sv with picolog := pl, record_initiated := false,
                 dev_state := DevState.fault }, false)

/-- `PicoPyServer.stop_recording` (lines 805-819): stops the driver; whether that
raises or not, an initiated record is cleared (both flags), and the state becomes
`STANDBY` on success or `FAULT` on an exception. -/
def Server.stop_recording (sv : Server) (pingStatus : PicoStatus) (pingElapsed : ℚ)
    (devStatus : PicoStatus) : Server :=
  match PicoLog.stop sv.picolog pingStatus pingElapsed devStatus with
  | (pl, Except.ok _) =>
    { sv with picolog := pl, record_initiated := false,
              data_ready_value := if sv.record_initiated then false else sv.data_ready_value,
              dev_state := DevState.standby }
  | (pl, Except.error _) =>
    { sv with picolog := pl, record_initiated := false,
              data_ready_value := if sv.record_initiated then false else sv.data_ready_value,
              dev_state := DevState.fault }

/-- `PicoPyServer.start_recording` (lines 791-794): unconditionally stops any recording
in progress, then starts a new one via `_start` with its default argument `0` (so the
record-in-progress rejection in `_start` is never taken on this path). -/
def Server.start_recording (sv : Server) (p1 : PicoStatus) (e1 : ℚ) (d1 : PicoStatus)
    (p2 : PicoStatus) (e2 : ℚ) (d2 : PicoStatus) (now : ℚ) : Server :=
  let sv1 := Server.stop_recording sv p1 e1 d1
  (Server._start sv1 0 p2 e2 d2 now).1

/-- `PicoPyServer.read` (lines 886-898): returns `False` (without touching anything)
when no record is initiated; otherwise polls the driver readiness and, when ready,
pulls the data and flips the flags.  All other paths return Python `None` (modelled as
`none`); exceptions are caught and clear both flags. -/
def Server.read (sv : Server) (p1 : PicoStatus) (e1 : ℚ) (rs1 : PicoStatus) (rf1 : Bool)
    (t1 : ℚ) (p2 : PicoStatus) (e2 : ℚ) (rs2 : PicoStatus) (rf2 : Bool) (t2 : ℚ)
    (reply : GetValuesReply) (readTime : ℚ) : Server × Option Bool :=
  if sv.record_initiated = false then (sv, some false)
  else
    match PicoLog.ready sv.picolog p1 e1 rs1 rf1 t1 with
    | (pl, Except.error _) =>
      ({ sv with picolog := pl, record_initiated := false, data_ready_value := false },
       none)
    | (pl, Except.ok b) =>
      if b then
        match PicoLog.read pl p2 e2 rs2 rf2 t2 reply readTime with
        | (pl2, Except.error _) =>
          ({ sv with picolog := pl2, record_initiated := false,
                     data_ready_value := false }, none)
        | (pl2, Except.ok _) =>
          ({ sv with picolog := pl2, record_initiated := false,
                     data_ready_value := true }, none)
      else ({ sv with picolog := pl }, none)

/-- Per-channel array returned by `read_channel_data`: raw 16-bit samples for the `y`
variant, rational times for the `x` variant. -/
inductive ChanData
  | ys (vals : List Nat)
  | xs (vals : List ℚ)
deriving DecidableEq, Repr

/-- `empty_array` (PicoPyServer.py lines 36-40). -/
def empty_array (xy : String) : ChanData :=
  if xy = "y" then ChanData.ys [] else ChanData.xs []

/-- `PicoPyServer.read_channel_data` (lines 614-639).  The first guard models
`hasattr(self, 'chan' + xy + '%02i' % channel)`: the class declares exactly the
attributes `chany01..chany16` and `chanx01..chanx16`, so the attribute exists iff
`xy` is "x" or "y" and the channel number is in 1..16; for a missing attribute an
empty array is returned without touching any quality.  Then: a channel that is not in
the configured list, or data not ready, yields an empty array with the attribute
quality set to INVALID; otherwise row `channels.index(channel)` of the times (for the
`x` variant, tested as `'x' == xy[0].lower()`) or data array is returned with quality
VALID.  The second component reports the quality written to the attribute, `none` when
it is left untouched. -/
def Server.read_channel_data (sv : Server) (channel : Int) (xy : String) :
    ChanData × Option AttrQuality :=
  if ¬ ((xy = "x" ∨ xy = "y") ∧ 1 ≤ channel ∧ channel ≤ 16) then
    (empty_array xy, none)
  else if sv.picolog.channels.contains channel = false then
    (empty_array xy, some AttrQuality.invalid)
  else if Server.read_data_ready sv = false then
    (empty_array xy, some AttrQuality.invalid)
  else
    let channel_index := sv.picolog.channels.indexOf channel
    if xy.front.toLower = 'x' then
      (ChanData.xs ((List.range sv.picolog.data_shape.2).map
          (sv.picolog.times channel_index)), some AttrQuality.valid)
    else
      (ChanData.ys ((List.range sv.picolog.data_shape.2).map
          (sv.picolog.data channel_index)), some AttrQuality.valid)

/-- A freshly opened driver: `open()` succeeded, nothing configured yet. -/
def openLog : PicoLog :=
  { handle_set := true, opened := true, last_status := some PicoStatus.ok }

/-- A server whose capture is in progress (`record_initiated`), for the concrete
scenarios.  The driver trace starts empty so that the SDK calls issued by the scenario
are exactly the trace. -/
def runningServer : Server :=
  { picolog := { openLog with points := 1000 }, record_initiated := true,
    data_ready_value := false, dev_state := DevState.running }

/-- A configured driver with two channels and four points per channel. -/
def configuredLog : PicoLog :=
  { openLog with points := 4, channels := [1, 5], data_shape := (2, 4),
                 overflow := 3, trigger := 7 }

/-- A server in STANDBY with no capture in progress and stale-but-present data. -/
def standbyServer : Server :=
  { picolog := configuredLog, record_initiated := false, data_ready_value := true,
    dev_state := DevState.standby }

/-- The driver state after one successful `close()` of `openLog`: the session whose
handle the hardware already released. -/
def closedOnceLog : PicoLog :=
  (PicoLog.close openLog PicoStatus.ok).1

/-- The eight trigger fields retained for replay, bundled for concise statements. -/
def PicoLog.trigger_fields (st : PicoLog) :
    Nat × Nat × Nat × Nat × Nat × ℚ × Nat × Nat :=
  (st.trigger_enabled, st.trigger_channel, st.trigger_edge, st.trigger_threshold,
   st.trigger_hysteresis, st.trigger_delay, st.trigger_auto, st.trigger_ms)

theorem assert_open_ok (st : PicoLog) (el : ℚ) (hh : st.handle_set = true)
    (ho : st.opened = true) (hel : 0 ≤ el) :
    PicoLog.assert_open st PicoStatus.ok el =
      ({ st with last_status := some PicoStatus.ok,
                 sdk_log := st.sdk_log ++ [SdkCall.pingUnit] }, Except.ok true) := by
  unfold PicoLog.assert_open PicoLog.ping
  rw [if_neg, if_neg]
  · simp
  · simp [not_lt.mpr hel]
  · simp [hh, ho]

/-- C10: `ping` returns `-1.0` exactly when the device status is neither `PICO_OK` nor
`PICO_BUSY`, and the (non-negative) elapsed time otherwise; it always records the
status in `last_status` and, being a total function, never raises. -/
theorem ping_status (st : PicoLog) (s : PicoStatus) (el : ℚ) (hel : 0 ≤ el) :
    ((PicoLog.ping st s el).2 = -1 ↔ ¬(s = PicoStatus.ok ∨ s = PicoStatus.busy)) ∧
    ((s = PicoStatus.ok ∨ s = PicoStatus.busy) → 0 ≤ (PicoLog.ping st s el).2) ∧
    (PicoLog.ping st s el).1.last_status = some s := by
  have hls : (PicoLog.ping st s el).1.last_status = some s := by
    unfold PicoLog.ping
    by_cases h : s = PicoStatus.ok ∨ s = PicoStatus.busy
    · rw [if_pos h]
    · rw [if_neg h]
  by_cases h : s = PicoStatus.ok ∨ s = PicoStatus.busy
  · have hv : (PicoLog.ping st s el).2 = el := by
      unfold PicoLog.ping
      rw [if_pos h]
    refine ⟨⟨fun he => ?_, fun hc => absurd h hc⟩, fun _ => by rw [hv]; exact hel, hls⟩
    rw [hv] at he
    rw [he] at hel
    norm_num at hel
  · have hv : (PicoLog.ping st s el).2 = -1 := by
      unfold PicoLog.ping
      rw [if_neg h]
    exact ⟨⟨fun _ => h, fun _ => hv⟩, fun hc => absurd hc h, hls⟩

/-- C10 witness: `ping` on a disconnected device (`PICO_NOT_FOUND`). -/
theorem ping_status_witness :
    ((PicoLog.ping openLog PicoStatus.notFound 0).2 = -1 ↔
      ¬(PicoStatus.notFound = PicoStatus.ok ∨ PicoStatus.notFound = PicoStatus.busy)) ∧
    ((PicoStatus.notFound = PicoStatus.ok ∨ PicoStatus.notFound = PicoStatus.busy) →
      0 ≤ (PicoLog.ping openLog PicoStatus.notFound 0).2) ∧
    (PicoLog.ping openLog PicoStatus.notFound 0).1.last_status =
      some PicoStatus.notFound :=
  ping_status openLog PicoStatus.notFound 0 (le_refl 0)

/-- C5 counterexample: closing the already-closed session, where the device reports the
non-success status `PICO_NOT_FOUND` for the second `pl1000CloseUnit`, raises a device
error (`assert_pico_ok` on line 323) instead of returning normally. -/
theorem close_second_raises :
    (PicoLog.close closedOnceLog PicoStatus.notFound).2 =
      Except.error (PicoError.deviceError PicoStatus.notFound) := by
  simp [PicoLog.close, assert_pico_ok]

/-- C5 amended: a second `close()` of an already-closed session records the device
status in `last_status` but then raises a device error whenever that status is not
`PICO_OK`; it does not return normally. -/
theorem close_records_then_raises (st : PicoLog) (s : PicoStatus)
    (hs : s ≠ PicoStatus.ok) :
    (PicoLog.close st s).1.last_status = some s ∧
    (PicoLog.close st s).2 = Except.error (PicoError.deviceError s) := by
  refine ⟨rfl, ?_⟩
  simp [PicoLog.close, assert_pico_ok, hs]

/-- C5 amended witness: the second close of `closedOnceLog`. -/
theorem close_records_then_raises_witness :
    (PicoLog.close closedOnceLog PicoStatus.notFound).1.last_status =
      some PicoStatus.notFound ∧
    (PicoLog.close closedOnceLog PicoStatus.notFound).2 =
      Except.error (PicoError.deviceError PicoStatus.notFound) :=
  close_records_then_raises closedOnceLog PicoStatus.notFound (by simp)

/-- C6 counterexample: `start_recording` invoked on a server whose capture is in
progress (all device statuses `PICO_OK`) is not a rejected no-op: the SDK trace shows
that the capture is first stopped and the device is re-run (`pl1000Run` issued
again). -/
theorem start_recording_reruns_device :
    (Server.start_recording runningServer PicoStatus.ok 0 PicoStatus.ok
        PicoStatus.ok 0 PicoStatus.ok 5).picolog.sdk_log =
      [SdkCall.pingUnit, SdkCall.stop, SdkCall.pingUnit, SdkCall.run 1000] := by
  norm_num [Server.start_recording, Server.stop_recording, Server._start,
    PicoLog.stop, PicoLog.start_recording, PicoLog.assert_open, PicoLog.ping,
    assert_pico_ok, runningServer, openLog]

/-- C6 amended: only the `_start` command called with a positive argument rejects a
start while a record is in progress: it returns `False` and leaves the whole server
state (hence the record-in-progress flag and the SDK trace — no device re-run)
unchanged.  The `start_recording` command instead stops the capture in progress and
starts a new one. -/
theorem start_rejected_when_running (sv : Server) (value : Int) (hv : 0 < value)
    (hr : sv.record_initiated = true) (p : PicoStatus) (e : ℚ) (d : PicoStatus)
    (now : ℚ) :
    Server._start sv value p e d now = (sv, false) := by
  unfold Server._start
  rw [if_pos ⟨hv, hr⟩]

/-- C6 amended witness: `_start 1` on the running server. -/
theorem start_rejected_when_running_witness :
    Server._start runningServer 1 PicoStatus.ok 0 PicoStatus.ok 5 =
      (runningServer, false) :=
  start_rejected_when_running runningServer 1 (by norm_num) rfl PicoStatus.ok 0
    PicoStatus.ok 5

/-- C7: `set_trigger` is atomic on failure and complete on success: on an open device,
a non-success device status raises a device error and leaves all eight stored trigger
fields unchanged, while a success status stores every supplied parameter. -/
theorem set_trigger_atomic (st : PicoLog) (en ch ed th hy : Nat) (dl : ℚ) (au ms : Nat)
    (el : ℚ) (d : PicoStatus) (hh : st.handle_set = true) (ho : st.opened = true)
    (hel : 0 ≤ el) :
    (d ≠ PicoStatus.ok →
      (PicoLog.set_trigger st en ch ed th hy dl au ms PicoStatus.ok el d).2 =
        Except.error (PicoError.deviceError d) ∧
      (PicoLog.set_trigger st en ch ed th hy dl au ms
          PicoStatus.ok el d).1.trigger_fields = st.trigger_fields) ∧
    (d = PicoStatus.ok →
      (PicoLog.set_trigger st en ch ed th hy dl au ms PicoStatus.ok el d).2 =
        Except.ok () ∧
      (PicoLog.set_trigger st en ch ed th hy dl au ms
          PicoStatus.ok el d).1.trigger_fields = (en, ch, ed, th, hy, dl, au, ms)) := by
  unfold PicoLog.set_trigger
  rw [assert_open_ok st el hh ho hel]
  constructor
  · intro hd
    rw [show assert_pico_ok d = Except.error (PicoError.deviceError d) from by
      simp [assert_pico_ok, hd]]
    exact ⟨rfl, rfl⟩
  · intro hd
    subst hd
    rw [show assert_pico_ok PicoStatus.ok = Except.ok () from rfl]
    exact ⟨rfl, rfl⟩

/-- C7 witness: a failing and, vacuously complementary, device status at a concrete
trigger parameter set on the open device. -/
theorem set_trigger_atomic_witness :
    (PicoStatus.notFound ≠ PicoStatus.ok →
      (PicoLog.set_trigger openLog 1 2 0 1024 50 (-25) 1 500
          PicoStatus.ok 0 PicoStatus.notFound).2 =
        Except.error (PicoError.deviceError PicoStatus.notFound) ∧
      (PicoLog.set_trigger openLog 1 2 0 1024 50 (-25) 1 500
          PicoStatus.ok 0 PicoStatus.notFound).1.trigger_fields =
        openLog.trigger_fields) ∧
    (PicoStatus.notFound = PicoStatus.ok →
      (PicoLog.set_trigger openLog 1 2 0 1024 50 (-25) 1 500
          PicoStatus.ok 0 PicoStatus.notFound).2 = Except.ok () ∧
      (PicoLog.set_trigger openLog 1 2 0 1024 50 (-25) 1 500
          PicoStatus.ok 0 PicoStatus.notFound).1.trigger_fields =
        (1, 2, 0, 1024, 50, -25, 1, 500)) :=
  set_trigger_atomic openLog 1 2 0 1024 50 (-25) 1 500 0 PicoStatus.notFound rfl rfl
    (le_refl 0)

/-- C8: the server `read()` command invoked while no record is initiated (session not
Running) is a no-op returning the non-ready status `False`: the whole server state —
in particular the capture buffer, overflow flag, trigger index and SDK trace — is
untouched and no `pl1000GetValues` is issued. -/
theorem read_not_running_noop (sv : Server) (hr : sv.record_initiated = false)
    (p1 : PicoStatus) (e1 : ℚ) (rs1 : PicoStatus) (rf1 : Bool) (t1 : ℚ)
    (p2 : PicoStatus) (e2 : ℚ) (rs2 : PicoStatus) (rf2 : Bool) (t2 : ℚ)
    (reply : GetValuesReply) (readTime : ℚ) :
    Server.read sv p1 e1 rs1 rf1 t1 p2 e2 rs2 rf2 t2 reply readTime =
      (sv, some false) := by
  unfold Server.read
  rw [if_pos hr]

theorem set_timing_run (st : PicoLog) (channels : List Int) (cp0 cr0 : Nat) (el : ℚ)
    (reply : SetIntervalReply) (hh : st.handle_set = true) (ho : st.opened = true)
    (hel : 0 ≤ el)
    (hnz : ¬ channels.length * resolved_points channels.length cp0 = 0)
    (hst : reply.status = PicoStatus.ok) :
    set_timing st channels cp0 cr0 PicoStatus.ok el reply =
      timing_commit
        { st with last_status := some PicoStatus.ok,
                  sdk_log := st.sdk_log ++ [SdkCall.pingUnit] ++
                    [SdkCall.setInterval
                      (resolved_record channels.length cp0 cr0 % UINT32_MOD)
                      (resolved_points channels.length cp0 % UINT32_MOD)
                      channels channels.length] }
        channels cp0 cr0 reply.n_out reply.us_out := by
  have h0 : ¬ ((channels.length : Int) < 0) := Int.not_lt.mpr (Int.natCast_nonneg _)
  simp only [set_timing]
  rw [if_neg h0, if_neg hnz, assert_open_ok st el hh ho hel, hst]
  rfl

/-- C1 (amended with the `record_us < 2^32` bound forced by the `c_uint32`
marshalling): for a valid request — 1..16 channels, positive points and record time,
total points within the maximum capture size, implied interval at or above the
floor of its bracket — with the device echoing the requested values, `set_timing`
returns `True` and `sampling` equals `0.001 * record_us / points`. -/
theorem set_timing_valid_c1 (st : PicoLog) (channels : List Int) (cp0 cr0 : Nat)
    (el : ℚ) (hh : st.handle_set = true) (ho : st.opened = true) (hel : 0 ≤ el)
    (hnc1 : 1 ≤ channels.length) (hnc16 : channels.length ≤ 16)
    (hcp : 0 < cp0) (_hcr : 0 < cr0)
    (hcap : channels.length * cp0 ≤ MAX_CAPTURE_SIZE) (hcr32 : cr0 < UINT32_MOD)
    (hfloor : (if channels.length * cp0 ≤ US_LIMIT then (1 : ℚ) else 10) ≤
        (cr0 : ℚ) / ((channels.length * cp0 : Nat) : ℚ)) :
    (set_timing st channels cp0 cr0 PicoStatus.ok el
        ⟨PicoStatus.ok, cr0, cp0⟩).2 = Except.ok true ∧
    (set_timing st channels cp0 cr0 PicoStatus.ok el
        ⟨PicoStatus.ok, cr0, cp0⟩).1.sampling =
      (1/1000) * (cr0 : ℚ) / (cp0 : ℚ) := by
  have hrp : resolved_points channels.length cp0 = cp0 := by
    unfold resolved_points
    rw [if_neg (not_lt.mpr hcap)]
  have hrr : resolved_record channels.length cp0 cr0 = cr0 := by
    simp only [resolved_record, hrp]
    rw [if_neg]
    rintro (⟨hL, hq⟩ | ⟨hL, hq⟩)
    · rw [if_pos hL] at hfloor
      exact absurd hq (not_lt.mpr hfloor)
    · rw [if_neg (not_le.mpr hL)] at hfloor
      exact absurd hq (not_lt.mpr hfloor)
  have hnz : ¬ channels.length * resolved_points channels.length cp0 = 0 := by
    rw [hrp]
    exact Nat.mul_ne_zero (by omega) (by omega)
  have hcp32 : cp0 % UINT32_MOD = cp0 := by
    apply Nat.mod_eq_of_lt
    calc cp0 ≤ channels.length * cp0 := Nat.le_mul_of_pos_left cp0 (by omega)
    _ ≤ MAX_CAPTURE_SIZE := hcap
    _ < UINT32_MOD := by norm_num [MAX_CAPTURE_SIZE, UINT32_MOD]
  rw [set_timing_run st channels cp0 cr0 el ⟨PicoStatus.ok, cr0, cp0⟩ hh ho hel hnz
      rfl]
  simp only [timing_commit, hcp32, Nat.mod_eq_of_lt hcr32]
  rw [if_neg (by simp)]
  exact ⟨rfl, rfl⟩

/-- C1 witness for the amended claim: one channel, 1000 points, 1 s record time. -/
theorem set_timing_valid_c1_witness :
    (set_timing openLog [1] 1000 1000000 PicoStatus.ok 0
        ⟨PicoStatus.ok, 1000000, 1000⟩).2 = Except.ok true ∧
    (set_timing openLog [1] 1000 1000000 PicoStatus.ok 0
        ⟨PicoStatus.ok, 1000000, 1000⟩).1.sampling =
      (1/1000) * (1000000 : ℚ) / (1000 : ℚ) :=
  set_timing_valid_c1 openLog [1] 1000 1000000 0 rfl rfl (le_refl 0) (by norm_num)
    (by norm_num) (by norm_num) (by norm_num) (by norm_num [MAX_CAPTURE_SIZE])
    (by norm_num [UINT32_MOD]) (by norm_num [US_LIMIT])

/-- C1 counterexample: `channels = [1]`, `points = 1`, `record_us = 2^32` satisfies
every validity condition of the claim (positive, within capture size, interval
`2^32 ≥ 1` µs), yet `set_timing` returns `False`: the record time is marshalled
through `ctypes.c_uint32`, so the device receives (and echoes) `0` and the readback
comparison fails. -/
theorem set_timing_c1_wrap :
    (set_timing openLog [1] 1 4294967296 PicoStatus.ok 0
        ⟨PicoStatus.ok, 4294967296, 1⟩).2 = Except.ok false := by
  rw [set_timing_run openLog [1] 1 4294967296 0 ⟨PicoStatus.ok, 4294967296, 1⟩ rfl rfl
      (le_refl 0) (by norm_num [resolved_points, MAX_CAPTURE_SIZE]) rfl]
  simp only [timing_commit]
  rw [if_pos (Or.inr (show (4294967296 : Nat) % UINT32_MOD ≠ 4294967296 by
    norm_num [UINT32_MOD]))]

/-- C2: whenever the request exceeds the maximum capture size (with a channel list of
the documented 1..16 size) and the device echoes the issued parameters unchanged,
`set_timing` resolves the per-channel points to `MAX_CAPTURE_SIZE // len(channels)`
and returns `False`. -/
theorem set_timing_truncates_c2 (st : PicoLog) (channels : List Int) (cp0 cr0 : Nat)
    (el : ℚ) (hh : st.handle_set = true) (ho : st.opened = true) (hel : 0 ≤ el)
    (hnc16 : channels.length ≤ 16)
    (hover : MAX_CAPTURE_SIZE < channels.length * cp0) :
    (set_timing st channels cp0 cr0 PicoStatus.ok el
        ⟨PicoStatus.ok, resolved_record channels.length cp0 cr0 % UINT32_MOD,
         resolved_points channels.length cp0 % UINT32_MOD⟩).1.points =
      MAX_CAPTURE_SIZE / channels.length ∧
    (set_timing st channels cp0 cr0 PicoStatus.ok el
        ⟨PicoStatus.ok, resolved_record channels.length cp0 cr0 % UINT32_MOD,
         resolved_points channels.length cp0 % UINT32_MOD⟩).2 = Except.ok false := by
  have hnc : 0 < channels.length := by
    rcases Nat.eq_zero_or_pos channels.length with h | h
    · rw [h] at hover
      simp [MAX_CAPTURE_SIZE] at hover
    · exact h
  have hrp : resolved_points channels.length cp0 = MAX_CAPTURE_SIZE / channels.length := by
    unfold resolved_points
    rw [if_pos hover]
  have hdiv_pos : 0 < MAX_CAPTURE_SIZE / channels.length :=
    Nat.div_pos (le_trans hnc16 (by norm_num [MAX_CAPTURE_SIZE])) hnc
  have hnz : ¬ channels.length * resolved_points channels.length cp0 = 0 := by
    rw [hrp]
    exact Nat.mul_ne_zero hnc.ne' hdiv_pos.ne'
  have hlt32 : MAX_CAPTURE_SIZE / channels.length < UINT32_MOD :=
    lt_of_le_of_lt (Nat.div_le_self _ _) (by norm_num [MAX_CAPTURE_SIZE, UINT32_MOD])
  have hmod : resolved_points channels.length cp0 % UINT32_MOD % UINT32_MOD =
      MAX_CAPTURE_SIZE / channels.length := by
    rw [hrp, Nat.mod_eq_of_lt hlt32, Nat.mod_eq_of_lt hlt32]
  have hne : MAX_CAPTURE_SIZE / channels.length ≠ cp0 :=
    Nat.ne_of_lt ((Nat.div_lt_iff_lt_mul hnc).mpr (by rw [Nat.mul_comm] at hover; exact hover))
  rw [set_timing_run st channels cp0 cr0 el _ hh ho hel hnz rfl]
  simp only [timing_commit, hmod]
  rw [if_pos (Or.inl hne)]
  exact ⟨rfl, rfl⟩

/-- C2 witness: two channels at 600000 points each (1.2 M total). -/
theorem set_timing_truncates_c2_witness :
    (set_timing openLog [1, 2] 600000 10000000 PicoStatus.ok 0
        ⟨PicoStatus.ok, resolved_record (List.length [1, 2]) 600000 10000000 % UINT32_MOD,
         resolved_points (List.length [1, 2]) 600000 % UINT32_MOD⟩).1.points =
      MAX_CAPTURE_SIZE / List.length [1, 2] ∧
    (set_timing openLog [1, 2] 600000 10000000 PicoStatus.ok 0
        ⟨PicoStatus.ok, resolved_record (List.length [1, 2]) 600000 10000000 % UINT32_MOD,
         resolved_points (List.length [1, 2]) 600000 % UINT32_MOD⟩).2 = Except.ok false :=
  set_timing_truncates_c2 openLog [1, 2] 600000 10000000 0 rfl rfl (le_refl 0)
    (by norm_num) (by norm_num [MAX_CAPTURE_SIZE])

/-- C3: whenever the implied interval (over the total points computed after any points
truncation) is below the floor of its bracket — 1 µs when the total is at most 8096,
10 µs above — and the device echoes the issued parameters unchanged, `set_timing`
resolves the record time to `total_points * floor_interval` and returns `False`. -/
theorem set_timing_floor_c3 (st : PicoLog) (channels : List Int) (cp0 cr0 : Nat)
    (el : ℚ) (hh : st.handle_set = true) (ho : st.opened = true) (hel : 0 ≤ el)
    (htot : 0 < channels.length * resolved_points channels.length cp0)
    (hfast : (cr0 : ℚ) /
        ((channels.length * resolved_points channels.length cp0 : Nat) : ℚ) <
      (if channels.length * resolved_points channels.length cp0 ≤ US_LIMIT
        then (1 : ℚ) else 10)) :
    (set_timing st channels cp0 cr0 PicoStatus.ok el
        ⟨PicoStatus.ok, resolved_record channels.length cp0 cr0 % UINT32_MOD,
         resolved_points channels.length cp0 % UINT32_MOD⟩).1.record_us =
      channels.length * resolved_points channels.length cp0 *
        (if channels.length * resolved_points channels.length cp0 ≤ US_LIMIT
          then 1 else 10) ∧
    (set_timing st channels cp0 cr0 PicoStatus.ok el
        ⟨PicoStatus.ok, resolved_record channels.length cp0 cr0 % UINT32_MOD,
         resolved_points channels.length cp0 % UINT32_MOD⟩).2 = Except.ok false := by
  have hnz : ¬ channels.length * resolved_points channels.length cp0 = 0 := htot.ne'
  have htotM : channels.length * resolved_points channels.length cp0 ≤
      MAX_CAPTURE_SIZE := by
    unfold resolved_points
    by_cases hc : channels.length * cp0 > MAX_CAPTURE_SIZE
    · rw [if_pos hc, Nat.mul_comm]
      exact Nat.div_mul_le_self MAX_CAPTURE_SIZE channels.length
    · rw [if_neg hc]
      exact not_lt.mp hc
  have hrr : resolved_record channels.length cp0 cr0 =
      channels.length * resolved_points channels.length cp0 *
        (if channels.length * resolved_points channels.length cp0 ≤ US_LIMIT
          then 1 else 10) := by
    simp only [resolved_record]
    rw [if_pos]
    by_cases hL : channels.length * resolved_points channels.length cp0 ≤ US_LIMIT
    · rw [if_pos hL] at hfast
      exact Or.inl ⟨hL, hfast⟩
    · rw [if_neg hL] at hfast
      exact Or.inr ⟨not_le.mp hL, hfast⟩
  have hfloor10 : (if channels.length * resolved_points channels.length cp0 ≤ US_LIMIT
      then 1 else 10) ≤ 10 := by
    split
    · norm_num
    · norm_num
  have hlt32 : channels.length * resolved_points channels.length cp0 *
      (if channels.length * resolved_points channels.length cp0 ≤ US_LIMIT
        then 1 else 10) < UINT32_MOD := by
    calc channels.length * resolved_points channels.length cp0 *
        (if channels.length * resolved_points channels.length cp0 ≤ US_LIMIT
          then 1 else 10)
        ≤ MAX_CAPTURE_SIZE * 10 := Nat.mul_le_mul htotM hfloor10
    _ < UINT32_MOD := by norm_num [MAX_CAPTURE_SIZE, UINT32_MOD]
  have hmod : resolved_record channels.length cp0 cr0 % UINT32_MOD % UINT32_MOD =
      channels.length * resolved_points channels.length cp0 *
        (if channels.length * resolved_points channels.length cp0 ≤ US_LIMIT
          then 1 else 10) := by
    rw [hrr, Nat.mod_eq_of_lt hlt32, Nat.mod_eq_of_lt hlt32]
  have hcr_lt : cr0 < channels.length * resolved_points channels.length cp0 *
      (if channels.length * resolved_points channels.length cp0 ≤ US_LIMIT
        then 1 else 10) := by
    have htotQ : (0 : ℚ) <
        ((channels.length * resolved_points channels.length cp0 : Nat) : ℚ) := by
      exact_mod_cast htot
    by_cases hL : channels.length * resolved_points channels.length cp0 ≤ US_LIMIT
    · rw [if_pos hL] at hfast ⊢
      have h2 := (div_lt_iff₀ htotQ).mp hfast
      push_cast at h2
      have h3 : (cr0 : ℚ) <
          ((channels.length * resolved_points channels.length cp0 * 1 : Nat) : ℚ) := by
        push_cast
        linarith
      exact_mod_cast h3
    · rw [if_neg hL] at hfast ⊢
      have h2 := (div_lt_iff₀ htotQ).mp hfast
      push_cast at h2
      have h3 : (cr0 : ℚ) <
          ((channels.length * resolved_points channels.length cp0 * 10 : Nat) : ℚ) := by
        push_cast
        linarith
      exact_mod_cast h3
  rw [set_timing_run st channels cp0 cr0 el _ hh ho hel hnz rfl]
  simp only [timing_commit, hmod]
  rw [if_pos (Or.inr (Nat.ne_of_gt hcr_lt))]
  exact ⟨rfl, rfl⟩

/-- C3 witness, the spec's scenario 1: channels `[1,2,3,4]`, 10000 points per channel,
200000 µs requested: 40000 total points, floor 10 µs, implied interval 5 µs, so the
record time resolves to 400000 µs and the call reports `False`. -/
theorem set_timing_floor_c3_witness :
    (set_timing openLog [1, 2, 3, 4] 10000 200000 PicoStatus.ok 0
        ⟨PicoStatus.ok,
         resolved_record (List.length [1, 2, 3, 4]) 10000 200000 % UINT32_MOD,
         resolved_points (List.length [1, 2, 3, 4]) 10000 % UINT32_MOD⟩).1.record_us =
      List.length [1, 2, 3, 4] * resolved_points (List.length [1, 2, 3, 4]) 10000 *
        (if List.length [1, 2, 3, 4] * resolved_points (List.length [1, 2, 3, 4]) 10000
            ≤ US_LIMIT then 1 else 10) ∧
    (set_timing openLog [1, 2, 3, 4] 10000 200000 PicoStatus.ok 0
        ⟨PicoStatus.ok,
         resolved_record (List.length [1, 2, 3, 4]) 10000 200000 % UINT32_MOD,
         resolved_points (List.length [1, 2, 3, 4]) 10000 % UINT32_MOD⟩).2 =
      Except.ok false :=
  set_timing_floor_c3 openLog [1, 2, 3, 4] 10000 200000 0 rfl rfl (le_refl 0)
    (by norm_num [resolved_points, MAX_CAPTURE_SIZE])
    (by norm_num [resolved_points, MAX_CAPTURE_SIZE, US_LIMIT])

theorem linspace0_eq (d : ℚ) (num j : Nat) (hj : j < num) :
    linspace0 (((num : ℚ) - 1) * d) num j = (j : ℚ) * d := by
  unfold linspace0
  rcases Nat.lt_or_ge num 2 with h2 | h2
  · have h1 : num = 1 := by omega
    subst h1
    have hj0 : j = 0 := by omega
    subst hj0
    norm_num
  · have h1 : num ≠ 1 := by omega
    rw [if_neg h1]
    have hne : ((num : ℚ) - 1) ≠ 0 := by
      have h2Q : (2 : ℚ) ≤ (num : ℚ) := by exact_mod_cast h2
      intro h
      rw [sub_eq_zero] at h
      rw [h] at h2Q
      norm_num at h2Q
    rw [mul_comm ((num : ℚ) - 1) d, mul_div_assoc, div_self hne, mul_one]

theorem timing_commit_times (st : PicoLog) (channels : List Int)
    (cp0 cr0 n us : Nat) (i j : Nat)
    (hj : j < (timing_commit st channels cp0 cr0 n us).1.points) :
    (timing_commit st channels cp0 cr0 n us).1.times i j =
      (j : ℚ) * (timing_commit st channels cp0 cr0 n us).1.sampling +
        (i : ℚ) * (timing_commit st channels cp0 cr0 n us).1.sampling /
          (channels.length : ℚ) := by
  simp only [timing_commit] at hj ⊢
  by_cases hc : (n % UINT32_MOD ≠ cp0 ∨ us % UINT32_MOD ≠ cr0)
  · rw [if_pos hc] at hj ⊢
    exact congrArg (fun x => x + (i : ℚ) * _ / (channels.length : ℚ))
      (linspace0_eq _ (n % UINT32_MOD) j hj)
  · rw [if_neg hc] at hj ⊢
    exact congrArg (fun x => x + (i : ℚ) * _ / (channels.length : ℚ))
      (linspace0_eq _ (n % UINT32_MOD) j hj)

/-- C4: after every successful `set_timing` call the time-offset table satisfies
`times[i][j] = j*sampling + i*sampling/len(channels)` for every channel index
`i < len(channels)` and sample index `j < points`, with `sampling` the resolved
per-channel interval (exact-rational idealisation of the float32 table). -/
theorem set_timing_times_c4 (st : PicoLog) (channels : List Int) (cp0 cr0 : Nat)
    (ps : PicoStatus) (el : ℚ) (reply : SetIntervalReply)
    (hsucc : (set_timing st channels cp0 cr0 ps el reply).2 = Except.ok true)
    (i j : Nat) (_hi : i < channels.length)
    (hj : j < (set_timing st channels cp0 cr0 ps el reply).1.points) :
    (set_timing st channels cp0 cr0 ps el reply).1.times i j =
      (j : ℚ) * (set_timing st channels cp0 cr0 ps el reply).1.sampling +
        (i : ℚ) * (set_timing st channels cp0 cr0 ps el reply).1.sampling /
          (channels.length : ℚ) := by
  have h0 : ¬ ((channels.length : Int) < 0) := Int.not_lt.mpr (Int.natCast_nonneg _)
  by_cases h1 : channels.length * resolved_points channels.length cp0 = 0
  · exfalso
    simp only [set_timing] at hsucc
    rw [if_neg h0, if_pos h1] at hsucc
    simp at hsucc
  · rcases hAO : PicoLog.assert_open st ps el with ⟨st1, r1⟩
    simp only [set_timing] at hsucc hj ⊢
    rw [if_neg h0, if_neg h1, hAO] at hsucc hj ⊢
    cases r1 with
    | error e => simp at hsucc
    | ok b =>
      cases hAP : assert_pico_ok reply.status with
      | error e =>
        rw [hAP] at hsucc
        simp at hsucc
      | ok u =>
        rw [hAP] at hj
        exact timing_commit_times _ channels cp0 cr0 reply.n_out reply.us_out i j hj

/-- C4 witness: two channels, four points, 100 µs — a successful call whose table is
checked at channel index 1, sample index 3. -/
theorem set_timing_times_c4_witness :
    (set_timing openLog [1, 2] 4 100 PicoStatus.ok 0
        ⟨PicoStatus.ok, 100, 4⟩).1.times 1 3 =
      (3 : ℚ) * (set_timing openLog [1, 2] 4 100 PicoStatus.ok 0
          ⟨PicoStatus.ok, 100, 4⟩).1.sampling +
        (1 : ℚ) * (set_timing openLog [1, 2] 4 100 PicoStatus.ok 0
            ⟨PicoStatus.ok, 100, 4⟩).1.sampling / (List.length [1, 2] : ℚ) :=
  set_timing_times_c4 openLog [1, 2] 4 100 PicoStatus.ok 0 ⟨PicoStatus.ok, 100, 4⟩
    (by
      rw [set_timing_run openLog [1, 2] 4 100 0 ⟨PicoStatus.ok, 100, 4⟩ rfl rfl
        (le_refl 0) (by norm_num [resolved_points, MAX_CAPTURE_SIZE]) rfl]
      simp only [timing_commit]
      rw [if_neg (by norm_num [UINT32_MOD])])
    1 3 (by norm_num)
    (by
      rw [set_timing_run openLog [1, 2] 4 100 0 ⟨PicoStatus.ok, 100, 4⟩ rfl rfl
        (le_refl 0) (by norm_num [resolved_points, MAX_CAPTURE_SIZE]) rfl]
      simp only [timing_commit]
      rw [if_neg (by norm_num [UINT32_MOD])]
      norm_num [UINT32_MOD])

/-- C8 witness: reading on the standby server. -/
theorem read_not_running_noop_witness :
    Server.read standbyServer PicoStatus.ok 0 PicoStatus.ok false 0
        PicoStatus.ok 0 PicoStatus.ok false 0 ⟨PicoStatus.ok, 0, 0, 0, fun _ _ => 0⟩ 0 =
      (standbyServer, some false) :=
  read_not_running_noop standbyServer rfl PicoStatus.ok 0 PicoStatus.ok false 0
    PicoStatus.ok 0 PicoStatus.ok false 0 ⟨PicoStatus.ok, 0, 0, 0, fun _ _ => 0⟩ 0

/-- C9: for every per-channel attribute read (channel 1..16, `y` data or `x` times
variant), a channel missing from the configured list or data not ready yields the
empty array with the attribute marked INVALID, and otherwise exactly row
`channels.index(channel)` of the data array (times array for the `x` variant) is
returned, marked VALID. -/
theorem read_channel_data_spec (sv : Server) (channel : Int) (xy : String)
    (hch1 : 1 ≤ channel) (hch16 : channel ≤ 16) (hxy : xy = "x" ∨ xy = "y") :
    ((sv.picolog.channels.contains channel = false ∨ sv.data_ready_value = false) →
      Server.read_channel_data sv channel xy =
        (empty_array xy, some AttrQuality.invalid)) ∧
    (sv.picolog.channels.contains channel = true → sv.data_ready_value = true →
      Server.read_channel_data sv channel xy =
        ((if xy = "x" then
            ChanData.xs ((List.range sv.picolog.data_shape.2).map
              (sv.picolog.times (sv.picolog.channels.indexOf channel)))
          else
            ChanData.ys ((List.range sv.picolog.data_shape.2).map
              (sv.picolog.data (sv.picolog.channels.indexOf channel)))),
         some AttrQuality.valid)) := by
  have hattr : ¬ ¬ ((xy = "x" ∨ xy = "y") ∧ 1 ≤ channel ∧ channel ≤ 16) :=
    not_not.mpr ⟨hxy, hch1, hch16⟩
  unfold Server.read_channel_data Server.read_data_ready
  rw [if_neg hattr]
  constructor
  · intro h
    rcases h with hc | hd
    · rw [if_pos hc]
    · by_cases hc : sv.picolog.channels.contains channel = false
      · rw [if_pos hc]
      · rw [if_neg hc, if_pos hd]
  · intro hc hd
    rw [if_neg (by rw [hc]; exact Bool.true_eq_false ▸ (by simp)),
        if_neg (by rw [hd]; simp)]
    rcases hxy with hx | hy
    · subst hx
      rw [if_pos (show ("x" : String).front.toLower = 'x' by decide),
          if_pos (rfl : ("x" : String) = "x")]
    · subst hy
      rw [if_neg (show ¬ ("y" : String).front.toLower = 'x' by decide),
          if_neg (show ¬ ("y" : String) = "x" by decide)]

/-- C9 witness: reading channel 5 (`y` variant) on the standby server, whose
configured channels are `[1, 5]` with data ready. -/
theorem read_channel_data_spec_witness :
    Server.read_channel_data standbyServer 5 "y" =
      ((if ("y" : String) = "x" then
          ChanData.xs ((List.range standbyServer.picolog.data_shape.2).map
            (standbyServer.picolog.times (standbyServer.picolog.channels.indexOf 5)))
        else
          ChanData.ys ((List.range standbyServer.picolog.data_shape.2).map
            (standbyServer.picolog.data (standbyServer.picolog.channels.indexOf 5)))),
       some AttrQuality.valid) :=
  (read_channel_data_spec standbyServer 5 "y" (by norm_num) (by norm_num)
    (Or.inr rfl)).2 (by decide) rfl
